import Mathlib

/-!
Verification development for the `async_calculator` repository (src/main.py).

The file shallowly embeds the calculator's safe-expression evaluator in Lean:

* Python numbers (int and float) are both modeled as exact rationals `ℚ`;
  the claims settled here do not distinguish int from float and do not
  depend on binary floating-point rounding.
* Irrational results of the host math routines (sin, sqrt of a
  non-square, a fractional power, ...) are modeled by the symbolic
  constructor `Value.sym`, which records which real number is meant
  (operation tag plus operands) without committing to an approximation.
  The claims depend only on the error behaviour and determinism of those
  routines, never on their numeric value.
* Raised Python exceptions are modeled with `Except`; the exception type
  `PyExc` mirrors the distinct exception classes that can escape
  `Calculator._eval_expression`: the script's own `SafeEvalError` (with a
  structured message, one constructor per raise site) and the host's
  `ZeroDivisionError`, `ValueError` and `TypeError`.
* `Calculator.memory` (the session's mutable cell) is threaded through
  evaluation as explicit state, so that the frame property "evaluation
  never writes the memory cell" is a theorem about the tree walk, not a
  notational accident.
-/

namespace AsyncCalc

/-- Structured message of a `SafeEvalError`; one constructor per `raise
SafeEvalError(...)` site in src/main.py. -/
inductive EvalMsg where
  /-- line 60: `Unsupported expression: {kind}` (visit dispatch found no handler) -/
  | unsupportedExpression (kind : String)
  /-- line 72: `Operator not allowed: {op}` -/
  | operatorNotAllowed (op : String)
  /-- line 79: `Unary operator not allowed: {op}` -/
  | unaryOperatorNotAllowed (op : String)
  /-- line 84: `Only direct function calls allowed (no attributes).` -/
  | onlyDirectCalls
  /-- line 89: `Function not allowed: {fname}` (also used when the entry is not callable) -/
  | functionNotAllowed (fname : String)
  /-- line 101: `Constants of type {ty} not allowed` -/
  | constantsNotAllowed (ty : String)
  /-- line 109: `Name {id} is not a numeric constant` -/
  | nameNotNumeric (id : String)
  /-- line 110: `Name not allowed: {id}` -/
  | nameNotAllowed (id : String)
  /-- line 117: `Disallowed expression element: {kind}` (`generic_visit`, unreachable
      through `visit`, kept for fidelity) -/
  | disallowedElement (kind : String)
  /-- line 192: `Syntax error: {e}` (wrapper around the host parser's SyntaxError) -/
  | syntaxError
  deriving Repr, DecidableEq

/-- Exception classes that can escape `Calculator._eval_expression`.
`safeEval` is the script's own `SafeEvalError`; the rest are host
exceptions raised by the operator implementations and math routines and
not caught anywhere in the evaluator. -/
inductive PyExc where
  | safeEval (msg : EvalMsg)
  | zeroDivision
  | valueError (msg : String)
  | typeError
  deriving Repr, DecidableEq

/-- Runtime values of the evaluator.  `num` is a Python int or float
(idealized as an exact rational); `compl` is the complex number produced
by `operator.pow` on a negative base and non-integer exponent, recorded
by its base and exponent; `sym` is a symbolic stand-in for an irrational
real produced by a host math routine; `list` is a Python list. -/
inductive Value where
  | num (q : ℚ)
  | compl (base expo : ℚ)
  | sym (tag : String) (args : List Value)
  | list (elts : List Value)
  deriving Repr

/-- A value that Python treats as a number (int, float or complex) for
arithmetic purposes: everything except a list. -/
def Value.isNumeric : Value → Bool
  | .list _ => false
  | _ => true

/-- Shared fallback of the binary operator implementations: a numeric
result whose exact value the model does not track (at least one operand
is symbolic or complex).  Lists are not numbers: Python raises TypeError. -/
def numericFallback (tag : String) (a b : Value) : Except PyExc Value :=
  if a.isNumeric && b.isNumeric then .ok (.sym tag [a, b])
  else .error .typeError

/-- operator.add.  Python also concatenates two lists with `+`. -/
def opAdd : Value → Value → Except PyExc Value
  | .num a, .num b => .ok (.num (a + b))
  | .list a, .list b => .ok (.list (a ++ b))
  | a, b => numericFallback "add" a b

/-- operator.sub. -/
def opSub : Value → Value → Except PyExc Value
  | .num a, .num b => .ok (.num (a - b))
  | a, b => numericFallback "sub" a b

/-- operator.mul.  (Python's int-only list repetition is outside the
modeled fragment, since the model merges int and float; a list operand is
reported as TypeError.) -/
def opMul : Value → Value → Except PyExc Value
  | .num a, .num b => .ok (.num (a * b))
  | a, b => numericFallback "mul" a b

/-- operator.truediv.  A zero divisor raises ZeroDivisionError whatever
the (numeric) numerator is. -/
def opTruediv : Value → Value → Except PyExc Value
  | .num a, .num b => if b = 0 then .error .zeroDivision else .ok (.num (a / b))
  | a, .num b =>
      if a.isNumeric then
        if b = 0 then .error .zeroDivision else .ok (.sym "truediv" [a, .num b])
      else .error .typeError
  | a, b => numericFallback "truediv" a b

/-- operator.floordiv.  Python floor division; complex operands raise
TypeError. -/
def opFloordiv : Value → Value → Except PyExc Value
  | .num a, .num b =>
      if b = 0 then .error .zeroDivision else .ok (.num (Int.floor (a / b) : ℤ))
  | .sym t xs, .num b =>
      if b = 0 then .error .zeroDivision else .ok (.sym "floordiv" [.sym t xs, .num b])
  | .num a, .sym t xs => .ok (.sym "floordiv" [.num a, .sym t xs])
  | .sym t xs, .sym u ys => .ok (.sym "floordiv" [.sym t xs, .sym u ys])
  | _, _ => .error .typeError

/-- operator.mod.  Python's modulus takes the sign of the divisor:
`a % b = a - b * floor(a / b)`; complex operands raise TypeError. -/
def opMod : Value → Value → Except PyExc Value
  | .num a, .num b =>
      if b = 0 then .error .zeroDivision
      else .ok (.num (a - b * (Int.floor (a / b) : ℤ)))
  | .sym t xs, .num b =>
      if b = 0 then .error .zeroDivision else .ok (.sym "mod" [.sym t xs, .num b])
  | .num a, .sym t xs => .ok (.sym "mod" [.num a, .sym t xs])
  | .sym t xs, .sym u ys => .ok (.sym "mod" [.sym t xs, .sym u ys])
  | _, _ => .error .typeError

/-- operator.pow (Python `**`).  With an integer exponent the result is
exact (a negative exponent on base 0 raises ZeroDivisionError).  With a
non-integer exponent: positive base gives an irrational real (symbolic),
base 0 gives 0 or ZeroDivisionError by the exponent's sign, and a
negative base silently yields a complex number - Python does NOT raise. -/
def opPow : Value → Value → Except PyExc Value
  | .num a, .num b =>
      if b.den = 1 then
        if a = 0 ∧ b.num < 0 then .error .zeroDivision
        else .ok (.num (a ^ b.num))
      else
        if a > 0 then .ok (.sym "pow" [.num a, .num b])
        else if a = 0 then
          if b > 0 then .ok (.num 0) else .error .zeroDivision
        else .ok (.compl a b)
  | a, b => numericFallback "pow" a b

/-- operator.neg. -/
def opNeg : Value → Except PyExc Value
  | .num a => .ok (.num (-a))
  | .list _ => .error .typeError
  | v => .ok (.sym "neg" [v])

/-- operator.pos (unary `+`, identity on numbers, TypeError on a list). -/
def opPos : Value → Except PyExc Value
  | .num a => .ok (.num a)
  | .list _ => .error .typeError
  | v => .ok v

/-- Binary operator kinds of the Python ast (`ast.BinOp.op` classes). -/
inductive BinOpKind where
  | add | sub | mult | div | pow | mod | floorDiv
  | lshift | rshift | bitOr | bitXor | bitAnd | matMult
  deriving Repr, DecidableEq

/-- Unary operator kinds of the Python ast (`ast.UnaryOp.op` classes). -/
inductive UnOpKind where
  | usub | uadd | notOp | invert
  deriving Repr, DecidableEq

/-- The `__name__` of the ast operator class, used in error messages. -/
def BinOpKind.clsName : BinOpKind → String
  | .add => "Add" | .sub => "Sub" | .mult => "Mult" | .div => "Div"
  | .pow => "Pow" | .mod => "Mod" | .floorDiv => "FloorDiv"
  | .lshift => "LShift" | .rshift => "RShift" | .bitOr => "BitOr"
  | .bitXor => "BitXor" | .bitAnd => "BitAnd" | .matMult => "MatMult"

/-- The `__name__` of the ast unary operator class. -/
def UnOpKind.clsName : UnOpKind → String
  | .usub => "USub" | .uadd => "UAdd" | .notOp => "Not" | .invert => "Invert"

/-- The binary keys of `SafeEvaluator.ALLOWED_OPERATORS` (src/main.py
lines 41-51): ast operator class mapped to the `operator` module
function; a key absent from the dict maps to `none`. -/
def ALLOWED_OPERATORS_bin : BinOpKind → Option (Value → Value → Except PyExc Value)
  | .add => some opAdd
  | .sub => some opSub
  | .mult => some opMul
  | .div => some opTruediv
  | .pow => some opPow
  | .mod => some opMod
  | .floorDiv => some opFloordiv
  | _ => none

/-- The unary keys of `SafeEvaluator.ALLOWED_OPERATORS` (same dict):
`ast.USub` and `ast.UAdd` only. -/
def ALLOWED_OPERATORS_un : UnOpKind → Option (Value → Except PyExc Value)
  | .usub => some opNeg
  | .uadd => some opPos
  | _ => none

/-- Literal constant payloads of `ast.Constant`.  In Python `bool` is a
subclass of `int`, so `visit_Constant` accepts True/False and they behave
as 1/0 in arithmetic. -/
inductive PyConst where
  | cInt (n : ℤ)
  | cFloat (q : ℚ)
  | cBool (b : Bool)
  | cStr (s : String)
  | cNone
  deriving Repr, DecidableEq

/-- Python expression AST as produced by `ast.parse(expr, mode="eval")`,
restricted to the node kinds relevant here.  The first eight constructors
are the kinds `SafeEvaluator` has `visit_*` methods for; the remaining
constructors model node kinds the host parser can produce but the
evaluator has no handler for (each carries representative children to
show they are never visited). -/
inductive PyAST where
  | expression (body : PyAST)
  | binOp (op : BinOpKind) (l r : PyAST)
  | unaryOp (op : UnOpKind) (x : PyAST)
  | call (func : PyAST) (args : List PyAST) (keywords : List (String × PyAST))
  | num (n : ℚ)
  | constant (c : PyConst)
  | name (id : String)
  | list (elts : List PyAST)
  | boolOp (vals : List PyAST)
  | compare (l r : PyAST)
  | attributeE (obj : PyAST) (attrName : String)
  | subscript (v idx : PyAST)
  | tuple (elts : List PyAST)
  | ifExp (c t e : PyAST)
  | lambdaE (body : PyAST)
  | dict (keys vals : List PyAST)
  deriving Repr

/-- `node.__class__.__name__`, the string interpolated by the dynamic
dispatch in `SafeEvaluator.visit`. -/
def PyAST.kindName : PyAST → String
  | .expression _ => "Expression"
  | .binOp .. => "BinOp"
  | .unaryOp .. => "UnaryOp"
  | .call .. => "Call"
  | .num _ => "Num"
  | .constant _ => "Constant"
  | .name _ => "Name"
  | .list _ => "List"
  | .boolOp _ => "BoolOp"
  | .compare .. => "Compare"
  | .attributeE .. => "Attribute"
  | .subscript .. => "Subscript"
  | .tuple _ => "Tuple"
  | .ifExp .. => "IfExp"
  | .lambdaE _ => "Lambda"
  | .dict .. => "Dict"

/-- Whether `SafeEvaluator` has a method named `visit_{kindName}` - the
condition probed by `getattr` in `SafeEvaluator.visit` (line 58). -/
def PyAST.handled : PyAST → Bool
  | .expression _ | .binOp .. | .unaryOp .. | .call .. | .num _
  | .constant _ | .name _ | .list _ => true
  | _ => false

/-- The exact rational value of the IEEE-754 double `math.pi`. -/
def piFloat : ℚ := 884279719003555 / 281474976710656

/-- The exact rational value of the IEEE-754 double `math.e`. -/
def eFloat : ℚ := 6121026514868073 / 2251799813685248

/-- The callables stored in `Calculator._make_names` (src/main.py lines
126-152), one tag per registry entry that is a function. -/
inductive FuncImpl where
  | sinF | cosF | tanF | asinF | acosF | atanF
  | sqrtF | logF | log10F | absF | roundF | floorF | ceilF
  | factF | factorialF | sumF | memF
  deriving Repr, DecidableEq

/-- Least number of positional arguments each callable binds without a
TypeError (Python signature of the stored callable). -/
def FuncImpl.minArity : FuncImpl → Nat
  | .memF => 0
  | _ => 1

/-- Greatest number of positional arguments each callable binds without a
TypeError.  `math.log` takes an optional base, the builtins `round` and
`sum` take an optional second argument. -/
def FuncImpl.maxArity : FuncImpl → Nat
  | .memF => 0
  | .logF | .roundF | .sumF => 2
  | _ => 1

/-- A registry entry is a numeric constant (a float) or a callable -
src/main.py mixes both in one dict, discriminated at run time with
`isinstance`/`callable`. -/
inductive RegEntry where
  | const (v : ℚ)
  | fn (f : FuncImpl)
  deriving Repr, DecidableEq

/-- The mapping built by `Calculator._make_names` (lines 126-152). -/
def names : String → Option RegEntry
  | "pi" => some (.const piFloat)
  | "e" => some (.const eFloat)
  | "sin" => some (.fn .sinF)
  | "cos" => some (.fn .cosF)
  | "tan" => some (.fn .tanF)
  | "asin" => some (.fn .asinF)
  | "acos" => some (.fn .acosF)
  | "atan" => some (.fn .atanF)
  | "sqrt" => some (.fn .sqrtF)
  | "log" => some (.fn .logF)
  | "log10" => some (.fn .log10F)
  | "abs" => some (.fn .absF)
  | "round" => some (.fn .roundF)
  | "floor" => some (.fn .floorF)
  | "ceil" => some (.fn .ceilF)
  | "fact" => some (.fn .factF)
  | "factorial" => some (.fn .factorialF)
  | "sum" => some (.fn .sumF)
  | "mem" => some (.fn .memF)
  | _ => none

/-- Truncation toward zero, Python's `int(float)`. -/
def ratTrunc (q : ℚ) : ℤ := if 0 ≤ q then Int.floor q else Int.ceil q

/-- Round half to even on the integer grid, Python's builtin `round`
semantics. -/
def bankersRound (q : ℚ) : ℤ :=
  let f := Int.floor q
  let r := q - (f : ℚ)
  if r < 1 / 2 then f
  else if 1 / 2 < r then f + 1
  else if f % 2 = 0 then f else f + 1

/-- Exact rational square root when it exists (`math.sqrt` returns the
exact float in that case; otherwise the result is irrational and modeled
symbolically). -/
def ratSqrt (q : ℚ) : Option ℚ :=
  let n := q.num.toNat
  let d := q.den
  let sn := Nat.sqrt n
  let sd := Nat.sqrt d
  if sn * sn = n ∧ sd * sd = d then some ((sn : ℚ) / (sd : ℚ)) else none

/-- Shared shape of the one-argument trig/log routines: defined on real
numbers (num or sym), TypeError on a complex or list argument, result
irrational hence symbolic. -/
def realUnary (tag : String) : Value → Except PyExc Value
  | .num q => .ok (.sym tag [.num q])
  | .sym t xs => .ok (.sym tag [.sym t xs])
  | _ => .error .typeError

/-- `sum`'s loop: `total = start; for x in xs: total = total + x`. -/
def foldAdd : Value → List Value → Except PyExc Value
  | acc, [] => .ok acc
  | acc, x :: xs =>
      match opAdd acc x with
      | .error e => .error e
      | .ok acc2 => foldAdd acc2 xs

/-- Semantics of each registry callable on already-evaluated positional
arguments.  `m` is the session's memory cell, read (only) by `mem`.  The
Python call machinery raises TypeError when the argument count does not
bind to the callable's signature, before the body runs.  Domain
violations of the math routines raise `ValueError("math domain error")`
(`math.factorial` has its own message). -/
def applyFuncE (impl : FuncImpl) (vals : List Value) (m : ℚ) : Except PyExc Value :=
  if vals.length < impl.minArity ∨ impl.maxArity < vals.length then .error .typeError
  else
    match impl, vals with
    | .sinF, [v] => realUnary "sin_degrees" v
    | .cosF, [v] => realUnary "cos_degrees" v
    | .tanF, [v] => realUnary "tan_degrees" v
    | .asinF, [v] =>
        match v with
        | .num q => if q < -1 ∨ 1 < q then .error (.valueError "math domain error")
                    else .ok (.sym "asin_degrees" [.num q])
        | .sym t xs => .ok (.sym "asin_degrees" [.sym t xs])
        | _ => .error .typeError
    | .acosF, [v] =>
        match v with
        | .num q => if q < -1 ∨ 1 < q then .error (.valueError "math domain error")
                    else .ok (.sym "acos_degrees" [.num q])
        | .sym t xs => .ok (.sym "acos_degrees" [.sym t xs])
        | _ => .error .typeError
    | .atanF, [v] => realUnary "atan_degrees" v
    | .sqrtF, [v] =>
        match v with
        | .num q =>
            if q < 0 then .error (.valueError "math domain error")
            else
              match ratSqrt q with
              | some r => .ok (.num r)
              | none => .ok (.sym "sqrt" [.num q])
        | .sym t xs => .ok (.sym "sqrt" [.sym t xs])
        | _ => .error .typeError
    | .logF, [v] =>
        match v with
        | .num q => if q ≤ 0 then .error (.valueError "math domain error")
                    else .ok (.sym "log" [.num q])
        | .sym t xs => .ok (.sym "log" [.sym t xs])
        | _ => .error .typeError
    | .logF, [v, b] =>
        match v, b with
        | .num q, .num qb =>
            if q ≤ 0 ∨ qb ≤ 0 then .error (.valueError "math domain error")
            else .ok (.sym "log_base" [.num q, .num qb])
        | .num q, .sym t xs =>
            if q ≤ 0 then .error (.valueError "math domain error")
            else .ok (.sym "log_base" [.num q, .sym t xs])
        | .sym t xs, .num qb =>
            if qb ≤ 0 then .error (.valueError "math domain error")
            else .ok (.sym "log_base" [.sym t xs, .num qb])
        | .sym t xs, .sym u ys => .ok (.sym "log_base" [.sym t xs, .sym u ys])
        | _, _ => .error .typeError
    | .log10F, [v] =>
        match v with
        | .num q => if q ≤ 0 then .error (.valueError "math domain error")
                    else .ok (.sym "log10" [.num q])
        | .sym t xs => .ok (.sym "log10" [.sym t xs])
        | _ => .error .typeError
    | .absF, [v] =>
        match v with
        | .num q => .ok (.num |q|)
        | .sym t xs => .ok (.sym "abs" [.sym t xs])
        | .compl a b => .ok (.sym "abs" [.compl a b])
        | _ => .error .typeError
    | .roundF, [v] =>
        match v with
        | .num q => .ok (.num (bankersRound q : ℤ))
        | .sym t xs => .ok (.sym "round" [.sym t xs])
        | _ => .error .typeError
    | .roundF, [v, n] =>
        match v, n with
        | .num q, .num qn =>
            if qn.den = 1 then
              .ok (.num ((bankersRound (q * 10 ^ qn.num) : ℚ) / 10 ^ qn.num))
            else .error .typeError
        | .sym t xs, .num qn =>
            if qn.den = 1 then .ok (.sym "round_ndigits" [.sym t xs, .num qn])
            else .error .typeError
        | _, _ => .error .typeError
    | .floorF, [v] =>
        match v with
        | .num q => .ok (.num (Int.floor q : ℤ))
        | .sym t xs => .ok (.sym "floor" [.sym t xs])
        | _ => .error .typeError
    | .ceilF, [v] =>
        match v with
        | .num q => .ok (.num (Int.ceil q : ℤ))
        | .sym t xs => .ok (.sym "ceil" [.sym t xs])
        | _ => .error .typeError
    | .factF, [v] | .factorialF, [v] =>
        match v with
        | .num q =>
            let n := ratTrunc q
            if n < 0 then .error (.valueError "factorial() not defined for negative values")
            else .ok (.num (Nat.factorial n.toNat))
        | .sym t xs => .ok (.sym "factorial" [.sym t xs])
        | _ => .error .typeError
    | .sumF, [v] =>
        match v with
        | .list xs => foldAdd (.num 0) xs
        | _ => .error .typeError
    | .sumF, [v, s] =>
        match v with
        | .list xs => foldAdd s xs
        | _ => .error .typeError
    | .memF, [] => .ok (.num m)
    | _, _ => .error .typeError

/-- `SafeEvaluator.visit_Constant` (lines 97-101): ints and floats (and
bools, since Python's `bool` is a subclass of `int`) pass; every other
constant type is rejected with a SafeEvalError. -/
def visitConstant : PyConst → Except PyExc Value
  | .cInt n => .ok (.num n)
  | .cFloat q => .ok (.num q)
  | .cBool b => .ok (.num (if b then 1 else 0))
  | .cStr _ => .error (.safeEval (.constantsNotAllowed "str"))
  | .cNone => .error (.safeEval (.constantsNotAllowed "NoneType"))

/-- `SafeEvaluator.visit_Name` (lines 103-110): a registry constant
evaluates to its value; a registry callable referenced as a bare name and
an unknown identifier are rejected with distinct SafeEvalError messages. -/
def visitName (id : String) : Except PyExc Value :=
  match names id with
  | some (.const v) => .ok (.num v)
  | some (.fn _) => .error (.safeEval (.nameNotNumeric id))
  | none => .error (.safeEval (.nameNotAllowed id))

mutual

/-- `SafeEvaluator.visit` and the `visit_*` methods (lines 56-117) as one
state-threaded tree walk: the pair's second component is the session's
memory cell after the walk (the cell is only ever read, via `mem`).
Nodes with no `visit_{kind}` method hit the dispatch fallback at lines
59-60 and raise `SafeEvalError("Unsupported expression: ...")` without
their children being visited. -/
def visitS : PyAST → ℚ → Except PyExc Value × ℚ
  | .expression body, m => visitS body m
  | .binOp op l r, m =>
      match visitS l m with
      | (.error e, m1) => (.error e, m1)
      | (.ok lv, m1) =>
          match visitS r m1 with
          | (.error e, m2) => (.error e, m2)
          | (.ok rv, m2) =>
              match ALLOWED_OPERATORS_bin op with
              | some f => (f lv rv, m2)
              | none => (.error (.safeEval (.operatorNotAllowed op.clsName)), m2)
  | .unaryOp op x, m =>
      match visitS x m with
      | (.error e, m1) => (.error e, m1)
      | (.ok v, m1) =>
          match ALLOWED_OPERATORS_un op with
          | some f => (f v, m1)
          | none => (.error (.safeEval (.unaryOperatorNotAllowed op.clsName)), m1)
  | .call f args _kws, m =>
      match f with
      | .name fid =>
          match names fid with
          | some (.fn impl) =>
              match visitArgsS args m with
              | (.error e, m1) => (.error e, m1)
              | (.ok vals, m1) => (applyFuncE impl vals m1, m1)
          | _ => (.error (.safeEval (.functionNotAllowed fid)), m)
      | _ => (.error (.safeEval .onlyDirectCalls), m)
  | .num n, m => (.ok (.num n), m)
  | .constant c, m => (visitConstant c, m)
  | .name id, m => (visitName id, m)
  | .list elts, m =>
      match visitArgsS elts m with
      | (.error e, m1) => (.error e, m1)
      | (.ok vals, m1) => (.ok (.list vals), m1)
  | n, m => (.error (.safeEval (.unsupportedExpression n.kindName)), m)
termination_by structural n _ => n

/-- Left-to-right evaluation of a node sequence (`[self.visit(arg) for
arg in node.args]` and `visit_List`'s comprehension), short-circuiting on
the first raised exception. -/
def visitArgsS : List PyAST → ℚ → Except PyExc (List Value) × ℚ
  | [], m => (.ok [], m)
  | a :: rest, m =>
      match visitS a m with
      | (.error e, m1) => (.error e, m1)
      | (.ok v, m1) =>
          match visitArgsS rest m1 with
          | (.error e, m2) => (.error e, m2)
          | (.ok vs, m2) => (.ok (v :: vs), m2)
termination_by structural l _ => l

end

/-- `expression.replace("^", "**")` (src/main.py line 183).  The pattern
is a single character, so the replacement is a character map. -/
def caretToPow (s : String) : String :=
  String.mk (s.data.foldr (fun c acc => if c = '^' then '*' :: '*' :: acc else c :: acc) [])

/-- Scanner loop of `Calculator._replace_bare_mem` (lines 197-216) over
the remaining characters.  `prev` is the character just before the
current position (`expr[i - 1]`), `none` at the start of the string.  A
`mem` occurrence is replaced by `mem()` when the following character (if
any) and the preceding character (if any) are not alphanumeric - the
code checks nothing else, in particular it does not exclude an occurrence
already followed by an opening parenthesis. -/
def replaceBareMemGo : Option Char → List Char → List Char
  | prev, 'm' :: 'e' :: 'm' :: rest =>
      if (match rest with
          | [] => true
          | c :: _ => !c.isAlphanum)
         &&
         (match prev with
          | none => true
          | some p => !p.isAlphanum) then
        'm' :: 'e' :: 'm' :: '(' :: ')' :: replaceBareMemGo (some 'm') rest
      else
        'm' :: replaceBareMemGo (some 'm') ('e' :: 'm' :: rest)
  | _, c :: cs => c :: replaceBareMemGo (some c) cs
  | _, [] => []

/-- `Calculator._replace_bare_mem`. -/
def replaceBareMem (expr : String) : String :=
  String.mk (replaceBareMemGo none expr.data)

/-! ### The host expression parser

`Calculator._eval_expression` hands the preprocessed text to the host's
`ast.parse(expr, mode="eval")`.  The fragment of the Python expression
grammar exercised by this calculator - numeric literals, the arithmetic
operators with Python's precedence and associativity (`**` is
right-associative and binds tighter than unary minus on its left but
looser on its right), parentheses, call trailers with positional and
keyword arguments, and list displays - is modeled below by a fuel-based
recursive-descent parser.  Out-of-fragment text (string literals,
comparison chains, attribute access, ...) is reported as a syntax error
by this model even where CPython would build an AST node the evaluator
then rejects; no claim depends on such inputs. -/

/-- Lexical tokens. -/
inductive Token where
  | tInt (n : ℕ)
  | tFloat (q : ℚ)
  | tIdent (s : String)
  | tOp (s : String)
  deriving Repr, DecidableEq

/-- Numeric value of a digit run. -/
def digitsToNat (ds : List Char) : ℕ :=
  ds.foldl (fun acc c => acc * 10 + (c.toNat - '0'.toNat)) 0

/-- Tokenizer (fuel-based; each step consumes at least one character). -/
def tokenizeGo : ℕ → List Char → Except String (List Token)
  | 0, _ => .error "internal lexer fuel exhausted"
  | _ + 1, [] => .ok []
  | fuel + 1, c :: cs =>
      if c.isWhitespace then tokenizeGo fuel cs
      else if c.isDigit then
        let intPart := (c :: cs).takeWhile Char.isDigit
        let rest1 := (c :: cs).dropWhile Char.isDigit
        match rest1 with
        | '.' :: rest2 =>
            let fracPart := rest2.takeWhile Char.isDigit
            let rest3 := rest2.dropWhile Char.isDigit
            let q : ℚ :=
              (digitsToNat intPart : ℚ) +
                (digitsToNat fracPart : ℚ) / (10 : ℚ) ^ fracPart.length
            (tokenizeGo fuel rest3).map (.tFloat q :: ·)
        | _ => (tokenizeGo fuel rest1).map (.tInt (digitsToNat intPart) :: ·)
      else if c = '.' then
        match cs with
        | d :: _ =>
            if d.isDigit then
              let fracPart := cs.takeWhile Char.isDigit
              let rest2 := cs.dropWhile Char.isDigit
              let q : ℚ := (digitsToNat fracPart : ℚ) / (10 : ℚ) ^ fracPart.length
              (tokenizeGo fuel rest2).map (.tFloat q :: ·)
            else .error "unexpected character"
        | [] => .error "unexpected character"
      else if c.isAlpha || c = '_' then
        let identPart := (c :: cs).takeWhile (fun d => d.isAlphanum || d = '_')
        let rest1 := (c :: cs).dropWhile (fun d => d.isAlphanum || d = '_')
        (tokenizeGo fuel rest1).map (.tIdent (String.mk identPart) :: ·)
      else if c = '*' then
        match cs with
        | '*' :: rest => (tokenizeGo fuel rest).map (.tOp "**" :: ·)
        | _ => (tokenizeGo fuel cs).map (.tOp "*" :: ·)
      else if c = '/' then
        match cs with
        | '/' :: rest => (tokenizeGo fuel rest).map (.tOp "//" :: ·)
        | _ => (tokenizeGo fuel cs).map (.tOp "/" :: ·)
      else if c = '=' then
        match cs with
        | '=' :: rest => (tokenizeGo fuel rest).map (.tOp "==" :: ·)
        | _ => (tokenizeGo fuel cs).map (.tOp "=" :: ·)
      else if c = '+' || c = '-' || c = '%' || c = '(' || c = ')' ||
              c = '[' || c = ']' || c = ',' then
        (tokenizeGo fuel cs).map (.tOp (String.mk [c]) :: ·)
      else .error "unexpected character"

/-- Tokenize a whole string. -/
def tokenize (s : String) : Except String (List Token) :=
  tokenizeGo (s.length + 1) s.data

mutual

/-- Additive level: `term (('+' | '-') term)*`, left-associative. -/
def pAdd : ℕ → List Token → Except String (PyAST × List Token)
  | 0, _ => .error "internal parser fuel exhausted"
  | fuel + 1, ts => do
      let (l, ts1) ← pMul fuel ts
      pAddRest fuel l ts1

/-- Loop of the additive level. -/
def pAddRest : ℕ → PyAST → List Token → Except String (PyAST × List Token)
  | 0, _, _ => .error "internal parser fuel exhausted"
  | fuel + 1, acc, ts =>
      match ts with
      | .tOp "+" :: rest => do
          let (r, ts2) ← pMul fuel rest
          pAddRest fuel (.binOp .add acc r) ts2
      | .tOp "-" :: rest => do
          let (r, ts2) ← pMul fuel rest
          pAddRest fuel (.binOp .sub acc r) ts2
      | _ => .ok (acc, ts)

/-- Multiplicative level: `unary (('*' | '/' | '//' | '%') unary)*`,
left-associative. -/
def pMul : ℕ → List Token → Except String (PyAST × List Token)
  | 0, _ => .error "internal parser fuel exhausted"
  | fuel + 1, ts => do
      let (l, ts1) ← pUnary fuel ts
      pMulRest fuel l ts1

/-- Loop of the multiplicative level. -/
def pMulRest : ℕ → PyAST → List Token → Except String (PyAST × List Token)
  | 0, _, _ => .error "internal parser fuel exhausted"
  | fuel + 1, acc, ts =>
      match ts with
      | .tOp "*" :: rest => do
          let (r, ts2) ← pUnary fuel rest
          pMulRest fuel (.binOp .mult acc r) ts2
      | .tOp "/" :: rest => do
          let (r, ts2) ← pUnary fuel rest
          pMulRest fuel (.binOp .div acc r) ts2
      | .tOp "//" :: rest => do
          let (r, ts2) ← pUnary fuel rest
          pMulRest fuel (.binOp .floorDiv acc r) ts2
      | .tOp "%" :: rest => do
          let (r, ts2) ← pUnary fuel rest
          pMulRest fuel (.binOp .mod acc r) ts2
      | _ => .ok (acc, ts)

/-- Unary level: signs bind tighter than `*` but looser than `**` on the
left (`-2 ** 2` is `-(2 ** 2)` in Python). -/
def pUnary : ℕ → List Token → Except String (PyAST × List Token)
  | 0, _ => .error "internal parser fuel exhausted"
  | fuel + 1, ts =>
      match ts with
      | .tOp "-" :: rest => do
          let (x, ts1) ← pUnary fuel rest
          .ok (.unaryOp .usub x, ts1)
      | .tOp "+" :: rest => do
          let (x, ts1) ← pUnary fuel rest
          .ok (.unaryOp .uadd x, ts1)
      | _ => pPow fuel ts

/-- Power level: `primary ('**' unary)?` - a full unary on the right
makes `**` right-associative and lets it absorb a signed exponent. -/
def pPow : ℕ → List Token → Except String (PyAST × List Token)
  | 0, _ => .error "internal parser fuel exhausted"
  | fuel + 1, ts => do
      let (b, ts1) ← pPrimary fuel ts
      match ts1 with
      | .tOp "**" :: rest => do
          let (e, ts2) ← pUnary fuel rest
          .ok (.binOp .pow b e, ts2)
      | _ => .ok (b, ts1)

/-- Primary: a literal, a name (with the keyword constants `True`,
`False`, `None` becoming `ast.Constant` as in CPython), a parenthesized
expression or a list display - followed by any number of call trailers. -/
def pPrimary : ℕ → List Token → Except String (PyAST × List Token)
  | 0, _ => .error "internal parser fuel exhausted"
  | fuel + 1, ts =>
      match ts with
      | .tInt n :: rest => pTrailers fuel (.constant (.cInt n)) rest
      | .tFloat q :: rest => pTrailers fuel (.constant (.cFloat q)) rest
      | .tIdent "True" :: rest => pTrailers fuel (.constant (.cBool true)) rest
      | .tIdent "False" :: rest => pTrailers fuel (.constant (.cBool false)) rest
      | .tIdent "None" :: rest => pTrailers fuel (.constant .cNone) rest
      | .tIdent s :: rest => pTrailers fuel (.name s) rest
      | .tOp "(" :: rest => do
          let (e, ts1) ← pAdd fuel rest
          match ts1 with
          | .tOp ")" :: ts2 => pTrailers fuel e ts2
          | _ => .error "expected closing parenthesis"
      | .tOp "[" :: rest =>
          match rest with
          | .tOp "]" :: ts2 => pTrailers fuel (.list []) ts2
          | _ => do
              let (es, ts1) ← pExprList fuel rest
              match ts1 with
              | .tOp "]" :: ts2 => pTrailers fuel (.list es) ts2
              | _ => .error "expected closing bracket"
      | _ => .error "invalid syntax"

/-- Comma-separated expressions (list display elements). -/
def pExprList : ℕ → List Token → Except String (List PyAST × List Token)
  | 0, _ => .error "internal parser fuel exhausted"
  | fuel + 1, ts => do
      let (e, ts1) ← pAdd fuel ts
      match ts1 with
      | .tOp "," :: rest => do
          let (es, ts2) ← pExprList fuel rest
          .ok (e :: es, ts2)
      | _ => .ok ([e], ts1)

/-- Call trailers: after a primary, each `'(' args ')'` builds an
`ast.Call` whose `func` is the expression parsed so far (also when that
is itself a call or a literal - Python only rejects such a `func` at
evaluation time). -/
def pTrailers : ℕ → PyAST → List Token → Except String (PyAST × List Token)
  | 0, _, _ => .error "internal parser fuel exhausted"
  | fuel + 1, acc, ts =>
      match ts with
      | .tOp "(" :: rest =>
          match rest with
          | .tOp ")" :: ts2 => pTrailers fuel (.call acc [] []) ts2
          | _ => do
              let (args, kws, ts1) ← pCallArgs fuel rest
              pTrailers fuel (.call acc args kws) ts1
      | _ => .ok (acc, ts)

/-- Call arguments up to and including the closing parenthesis:
positional expressions and `name = expr` keyword items. -/
def pCallArgs : ℕ → List Token →
    Except String (List PyAST × List (String × PyAST) × List Token)
  | 0, _ => .error "internal parser fuel exhausted"
  | fuel + 1, ts =>
      match ts with
      | .tIdent id :: .tOp "=" :: rest => do
          let (v, ts1) ← pAdd fuel rest
          match ts1 with
          | .tOp "," :: ts2 => do
              let (args, kws, ts3) ← pCallArgs fuel ts2
              .ok (args, (id, v) :: kws, ts3)
          | .tOp ")" :: ts2 => .ok ([], [(id, v)], ts2)
          | _ => .error "expected comma or closing parenthesis"
      | _ => do
          let (e, ts1) ← pAdd fuel ts
          match ts1 with
          | .tOp "," :: ts2 => do
              let (args, kws, ts3) ← pCallArgs fuel ts2
              .ok (e :: args, kws, ts3)
          | .tOp ")" :: ts2 => .ok ([e], [], ts2)
          | _ => .error "expected comma or closing parenthesis"

end

/-- `ast.parse(expr, mode="eval")` over the modeled fragment: tokenize,
parse one expression, require the whole token stream to be consumed, and
wrap the body in `ast.Expression`. -/
def parseExpr (s : String) : Except String PyAST :=
  match tokenize s with
  | .error e => .error e
  | .ok ts =>
      match pAdd (8 * (ts.length + 1)) ts with
      | .error e => .error e
      | .ok (a, []) => .ok (.expression a)
      | .ok (_, _ :: _) => .error "invalid syntax"

/-- `Calculator._eval_expression` (lines 177-195): caret rewrite, bare
`mem` rewrite, host parse (a SyntaxError is re-raised as
`SafeEvalError("Syntax error: ...")`), then the safe tree walk.  Returns
the result together with the memory cell after evaluation. -/
def evalExpression (m : ℚ) (expression : String) : Except PyExc Value × ℚ :=
  let expr := caretToPow expression
  let expr2 := replaceBareMem expr
  match parseExpr expr2 with
  | .error _ => (.error (.safeEval .syntaxError), m)
  | .ok node => visitS node m

/-- The `Calculator` session object: its only mutable field is the memory
cell (float, default 0.0). -/
structure Calculator where
  memory : ℚ
  deriving Repr, DecidableEq

/-- `Calculator()` - fresh session with memory 0.0. -/
def Calculator.new : Calculator := ⟨0⟩

/-- `Calculator.store_memory`. -/
def Calculator.storeMemory (_c : Calculator) (v : ℚ) : Calculator := ⟨v⟩

/-- `Calculator.recall_memory`. -/
def Calculator.recallMemory (c : Calculator) : ℚ := c.memory

/-- `Calculator.clear_memory`. -/
def Calculator.clearMemory (_c : Calculator) : Calculator := ⟨0⟩

/-- `Calculator.evaluate` / `_eval_expression` at the session level: the
result of the walk plus the session state afterwards. -/
def Calculator.evalExpr (c : Calculator) (expression : String) :
    Except PyExc Value × Calculator :=
  let (r, m) := evalExpression c.memory expression
  (r, ⟨m⟩)

/-- The name-shaped test `isinstance(node.func, ast.Name)` of
`visit_Call` (line 83). -/
def PyAST.isNameNode : PyAST → Bool
  | .name _ => true
  | _ => false

/-! ### Reference semantics for the refinement claim

`specBinApply`, `specUnApply` and `specReferenceEval` are the one
exception to source-translation in this file: they follow the SPEC's
words (sections 3 and 4.3) - "NumberLiteral returns its value verbatim;
BinaryOp(op, l, r): evaluate l then r; apply the operator's total
function; UnaryOp: negation or identity" - and serve as the trusted
reference evaluator the claim compares the table-driven `SafeEvaluator`
against.  The operators' numeric functions themselves are the shared
trusted base. -/

/-- Whether the operator kind is one of the spec's arithmetic binary
operator kinds {Add, Sub, Mul, Div, Pow, Mod, FloorDiv}. -/
def isArithBin : BinOpKind → Bool
  | .add | .sub | .mult | .div | .pow | .mod | .floorDiv => true
  | _ => false

/-- Whether the operator kind is one of the spec's unary operator kinds
{Neg, Pos}. -/
def isArithUn : UnOpKind → Bool
  | .usub | .uadd => true
  | _ => false

/-- The total numeric function the spec assigns to each binary operator
kind (spec section 3, "Operator Kind"). -/
def specBinApply : BinOpKind → Value → Value → Except PyExc Value
  | .add => opAdd
  | .sub => opSub
  | .mult => opMul
  | .div => opTruediv
  | .pow => opPow
  | .mod => opMod
  | .floorDiv => opFloordiv
  | _ => fun _ _ => .error (.safeEval (.operatorNotAllowed "outside the spec's operator kinds"))

/-- The function the spec assigns to each unary operator kind. -/
def specUnApply : UnOpKind → Value → Except PyExc Value
  | .usub => opNeg
  | .uadd => opPos
  | _ => fun _ => .error (.safeEval (.unaryOperatorNotAllowed "outside the spec's operator kinds"))

/-- Trusted reference evaluator over the arithmetic fragment, following
the spec's per-kind semantics words (section 4.3). -/
def specReferenceEval : PyAST → Except PyExc Value
  | .expression body => specReferenceEval body
  | .num n => .ok (.num n)
  | .constant (.cInt n) => .ok (.num (n : ℚ))
  | .constant (.cFloat q) => .ok (.num q)
  | .binOp op l r => do
      let lv ← specReferenceEval l
      let rv ← specReferenceEval r
      specBinApply op lv rv
  | .unaryOp op x => do
      let v ← specReferenceEval x
      specUnApply op v
  | _ => .error (.safeEval (.unsupportedExpression "outside the arithmetic fragment"))

/-- The call-free arithmetic expressions of the refinement claim: numeric
literals and the arithmetic binary/unary operators only. -/
inductive ArithOnly : PyAST → Prop
  | expr : ∀ (b : PyAST), ArithOnly b → ArithOnly (.expression b)
  | numLit : ∀ (n : ℚ), ArithOnly (.num n)
  | intLit : ∀ (n : ℤ), ArithOnly (.constant (.cInt n))
  | floatLit : ∀ (q : ℚ), ArithOnly (.constant (.cFloat q))
  | bin : ∀ (op : BinOpKind) (l r : PyAST), isArithBin op = true →
      ArithOnly l → ArithOnly r → ArithOnly (.binOp op l r)
  | un : ∀ (op : UnOpKind) (x : PyAST), isArithUn op = true →
      ArithOnly x → ArithOnly (.unaryOp op x)

/-! ### Helper lemmas -/

/-- On the spec's arithmetic operator kinds, the evaluator's
`ALLOWED_OPERATORS` dict holds exactly the operator's total function. -/
theorem allowed_bin_of_arith (op : BinOpKind) (h : isArithBin op = true) :
    ALLOWED_OPERATORS_bin op = some (specBinApply op) := by
  cases op <;> simp_all [isArithBin, ALLOWED_OPERATORS_bin, specBinApply]

/-- Unary analogue of `allowed_bin_of_arith`. -/
theorem allowed_un_of_arith (op : UnOpKind) (h : isArithUn op = true) :
    ALLOWED_OPERATORS_un op = some (specUnApply op) := by
  cases op <;> simp_all [isArithUn, ALLOWED_OPERATORS_un, specUnApply]

mutual

/-- Frame property of the tree walk: no node's evaluation writes the
session's memory cell. -/
theorem visit_frame (n : PyAST) (m : ℚ) : (visitS n m).2 = m := by
  cases n with
  | expression body => simpa only [visitS] using visit_frame body m
  | binOp op l r =>
      simp only [visitS]
      split
      · rename_i e m1 heq
        have h := visit_frame l m
        rw [heq] at h
        exact h
      · rename_i lv m1 heq
        have h1 := visit_frame l m
        rw [heq] at h1
        split
        · rename_i e m2 heq2
          have h2 := visit_frame r m1
          rw [heq2] at h2
          exact h2.trans h1
        · rename_i rv m2 heq2
          have h2 := visit_frame r m1
          rw [heq2] at h2
          split
          · exact h2.trans h1
          · exact h2.trans h1
  | unaryOp op x =>
      simp only [visitS]
      split
      · rename_i e m1 heq
        have h := visit_frame x m
        rw [heq] at h
        exact h
      · rename_i v m1 heq
        have h1 := visit_frame x m
        rw [heq] at h1
        split
        · exact h1
        · exact h1
  | call f args kws =>
      cases f with
      | name fid =>
          simp only [visitS]
          split
          · split
            · rename_i e m1 heq
              have h := visitArgs_frame args m
              rw [heq] at h
              exact h
            · rename_i vals m1 heq
              have h := visitArgs_frame args m
              rw [heq] at h
              exact h
          · rfl
      | expression b => rfl
      | binOp op2 l2 r2 => rfl
      | unaryOp op2 x2 => rfl
      | call f2 a2 k2 => rfl
      | num n2 => rfl
      | constant c2 => rfl
      | list e2 => rfl
      | boolOp v2 => rfl
      | compare l2 r2 => rfl
      | attributeE o2 a2 => rfl
      | subscript v2 i2 => rfl
      | tuple e2 => rfl
      | ifExp c2 t2 e2 => rfl
      | lambdaE b2 => rfl
      | dict k2 v2 => rfl
  | num n => rfl
  | constant c => rfl
  | name id => rfl
  | list elts =>
      simp only [visitS]
      split
      · rename_i e m1 heq
        have h := visitArgs_frame elts m
        rw [heq] at h
        exact h
      · rename_i vals m1 heq
        have h := visitArgs_frame elts m
        rw [heq] at h
        exact h
  | boolOp vals => rfl
  | compare l r => rfl
  | attributeE obj attrName => rfl
  | subscript v idx => rfl
  | tuple elts => rfl
  | ifExp c t e => rfl
  | lambdaE body => rfl
  | dict keys vals => rfl

/-- Frame property for node sequences. -/
theorem visitArgs_frame (l : List PyAST) (m : ℚ) : (visitArgsS l m).2 = m := by
  cases l with
  | nil => rfl
  | cons a rest =>
      simp only [visitArgsS]
      split
      · rename_i e m1 heq
        have h := visit_frame a m
        rw [heq] at h
        exact h
      · rename_i v m1 heq
        have h1 := visit_frame a m
        rw [heq] at h1
        split
        · rename_i e m2 heq2
          have h2 := visitArgs_frame rest m1
          rw [heq2] at h2
          exact h2.trans h1
        · rename_i vs m2 heq2
          have h2 := visitArgs_frame rest m1
          rw [heq2] at h2
          exact h2.trans h1

end

/-- Frame property at the `_eval_expression` boundary. -/
theorem evalExpression_frame (m : ℚ) (e : String) : (evalExpression m e).2 = m := by
  simp only [evalExpression]
  split
  · rfl
  · rename_i node heq
    exact visit_frame node m

/-- On the call-free arithmetic fragment, the table-driven walk of
`SafeEvaluator` computes exactly what the spec's reference evaluator
computes (and is insensitive to the memory cell). -/
theorem visit_arith_agrees (a : PyAST) (m : ℚ) (h : ArithOnly a) :
    (visitS a m).1 = specReferenceEval a := by
  induction h generalizing m with
  | expr b hb ih => simpa only [visitS, specReferenceEval] using ih m
  | numLit n => rfl
  | intLit n => rfl
  | floatLit q => rfl
  | bin op l r hop hl hr ihl ihr =>
      simp only [visitS, specReferenceEval]
      split
      · rename_i e m1 heq
        have h1 : specReferenceEval l = .error e := by
          have h0 := ihl m
          rw [heq] at h0
          exact h0.symm
        rw [h1]
        rfl
      · rename_i lv m1 heq
        have h1 : specReferenceEval l = .ok lv := by
          have h0 := ihl m
          rw [heq] at h0
          exact h0.symm
        split
        · rename_i e m2 heq2
          have h2 : specReferenceEval r = .error e := by
            have h0 := ihr m1
            rw [heq2] at h0
            exact h0.symm
          rw [h1, h2]
          rfl
        · rename_i rv m2 heq2
          have h2 : specReferenceEval r = .ok rv := by
            have h0 := ihr m1
            rw [heq2] at h0
            exact h0.symm
          rw [allowed_bin_of_arith op hop, h1, h2]
          rfl
  | un op x hop hx ihx =>
      simp only [visitS, specReferenceEval]
      split
      · rename_i e m1 heq
        have h1 : specReferenceEval x = .error e := by
          have h0 := ihx m
          rw [heq] at h0
          exact h0.symm
        rw [h1]
        rfl
      · rename_i v m1 heq
        have h1 : specReferenceEval x = .ok v := by
          have h0 := ihx m
          rw [heq] at h0
          exact h0.symm
        rw [allowed_un_of_arith op hop, h1]
        rfl

/-! ### Claim theorems -/

/-- C1: every AST node whose kind is outside the evaluator's closed
allow-list is rejected with a typed SafeEvalError - an unhandled node
kind yields exactly `Unsupported expression: {kind}` whatever its
children are (so the node is never executed), a handled kind failing its
qualification (disallowed operator, non-name callee, non-numeric
constant) yields its own SafeEvalError - never a generic fault. -/
theorem c1_outside_allow_list_rejected :
    (∀ (n : PyAST) (m : ℚ), n.handled = false →
        visitS n m = (.error (.safeEval (.unsupportedExpression n.kindName)), m))
    ∧ (∀ (op : BinOpKind) (a b m : ℚ), ALLOWED_OPERATORS_bin op = none →
        visitS (.binOp op (.num a) (.num b)) m
          = (.error (.safeEval (.operatorNotAllowed op.clsName)), m))
    ∧ (∀ (op : UnOpKind) (a m : ℚ), ALLOWED_OPERATORS_un op = none →
        visitS (.unaryOp op (.num a)) m
          = (.error (.safeEval (.unaryOperatorNotAllowed op.clsName)), m))
    ∧ (∀ (f : PyAST) (args : List PyAST) (kws : List (String × PyAST)) (m : ℚ),
        f.isNameNode = false →
        visitS (.call f args kws) m = (.error (.safeEval .onlyDirectCalls), m))
    ∧ (∀ (s : String) (m : ℚ),
        visitS (.constant (.cStr s)) m
          = (.error (.safeEval (.constantsNotAllowed "str")), m)) := by
  refine ⟨?_, ?_, ?_, ?_, ?_⟩
  · intro n m h
    cases n <;> first | rfl | simp [PyAST.handled] at h
  · intro op a b m h
    simp [visitS, h]
  · intro op a m h
    simp [visitS, h]
  · intro f args kws m h
    cases f <;> first | rfl | simp [PyAST.isNameNode] at h
  · intro s m
    rfl

/-- Witness for C1 at concrete nodes: a Compare node, a left-shift BinOp,
a `not` UnaryOp and an attribute call. -/
theorem c1_witness :
    visitS (.compare (.num 1) (.num 2)) 0
      = (.error (.safeEval (.unsupportedExpression "Compare")), 0)
    ∧ visitS (.binOp .lshift (.num 1) (.num 2)) 0
      = (.error (.safeEval (.operatorNotAllowed "LShift")), 0)
    ∧ visitS (.unaryOp .notOp (.num 1)) 0
      = (.error (.safeEval (.unaryOperatorNotAllowed "Not")), 0)
    ∧ visitS (.call (.attributeE (.name "math") "sin") [.num 1] []) 0
      = (.error (.safeEval .onlyDirectCalls), 0) :=
  ⟨c1_outside_allow_list_rejected.1 _ 0 rfl,
   c1_outside_allow_list_rejected.2.1 .lshift 1 2 0 rfl,
   c1_outside_allow_list_rejected.2.2.1 .notOp 1 0 rfl,
   c1_outside_allow_list_rejected.2.2.2.1 _ [.num 1] [] 0 rfl⟩

/-- C2: on every call-free arithmetic expression the parser+evaluator
pipeline agrees with the trusted reference evaluator (defined from the
spec's words), and the quoted examples hold end to end: 2 + 2 = 4,
3 * (4 + 5) = 27 and - after the caret rewrite - 2 ^ 10 = 1024. -/
theorem c2_agrees_with_reference :
    (∀ (a : PyAST) (m : ℚ), ArithOnly a → (visitS a m).1 = specReferenceEval a)
    ∧ (evalExpression 0 "2 + 2").1 = .ok (.num 4)
    ∧ (evalExpression 0 "3 * (4 + 5)").1 = .ok (.num 27)
    ∧ (evalExpression 0 "2 ^ 10").1 = .ok (.num 1024) :=
  ⟨fun a m h => visit_arith_agrees a m h, by with_unfolding_all rfl,
   by with_unfolding_all rfl, by with_unfolding_all rfl⟩

/-- Witness for C2 at the concrete arithmetic node `2 + 2`. -/
theorem c2_witness :
    (visitS (.binOp .add (.num 2) (.num 2)) 0).1
      = specReferenceEval (.binOp .add (.num 2) (.num 2)) :=
  c2_agrees_with_reference.1 _ 0 (.bin _ _ _ rfl (.numLit 2) (.numLit 2))

/-- C3: a zero divisor under `/`, `//` or `%` always produces the typed
ZeroDivisionError (the distinct host exception class, recovered at the
expression boundary), never an untyped fault; in particular
`evaluate("1/0")` is exactly that error. -/
theorem c3_division_by_zero :
    (∀ (l m : ℚ),
        visitS (.binOp .div (.num l) (.num 0)) m = (.error .zeroDivision, m)
        ∧ visitS (.binOp .floorDiv (.num l) (.num 0)) m = (.error .zeroDivision, m)
        ∧ visitS (.binOp .mod (.num l) (.num 0)) m = (.error .zeroDivision, m))
    ∧ (evalExpression 0 "1/0").1 = .error .zeroDivision := by
  refine ⟨fun l m => ⟨?_, ?_, ?_⟩, by with_unfolding_all rfl⟩
  · simp [visitS, ALLOWED_OPERATORS_bin, opTruediv]
  · simp [visitS, ALLOWED_OPERATORS_bin, opFloordiv]
  · simp [visitS, ALLOWED_OPERATORS_bin, opMod]

/-- Witness for C3 at the concrete division `1 / 0`. -/
theorem c3_witness :
    visitS (.binOp .div (.num 1) (.num 0)) 0 = (.error .zeroDivision, 0) :=
  (c3_division_by_zero.1 1 0).1


/-- C4 counterexample: the claim says power with a negative base and a
fractional exponent yields DomainError, but the code silently returns a
complex number: `(-1) ^ 0.5` (caret rewritten to `**`) evaluates to the
complex value `(-1) ** 0.5`, not an error. -/
theorem c4_counterexample :
    (evalExpression 0 "(-1) ^ 0.5").1 = .ok (.compl (-1) (1 / 2)) := by
  with_unfolding_all rfl

/-- C4 amended: sqrt of a negative argument does yield the typed math
domain error (the host ValueError), and `evaluate("sqrt(-1)")` is exactly
that error; but power with a negative base and a fractional exponent
silently produces a complex value instead of a DomainError. -/
theorem c4_amended :
    (∀ (q m : ℚ), q < 0 →
        applyFuncE .sqrtF [.num q] m = .error (.valueError "math domain error"))
    ∧ (evalExpression 0 "sqrt(-1)").1 = .error (.valueError "math domain error")
    ∧ (∀ (a b m : ℚ), a < 0 → b.den ≠ 1 →
        visitS (.binOp .pow (.num a) (.num b)) m = (.ok (.compl a b), m)) := by
  refine ⟨?_, by with_unfolding_all rfl, ?_⟩
  · intro q m h
    simp [applyFuncE, FuncImpl.minArity, FuncImpl.maxArity, h]
  · intro a b m ha hb
    have h2 : ¬a > 0 := not_lt.mpr ha.le
    have h3 : ¬a = 0 := ha.ne
    simp [visitS, ALLOWED_OPERATORS_bin, opPow, hb, h2, h3]

/-- Witness for C4 at sqrt(-1) and (-2) ** (3/2). -/
theorem c4_witness :
    applyFuncE .sqrtF [.num (-1)] 0 = .error (.valueError "math domain error")
    ∧ visitS (.binOp .pow (.num (-2)) (.num (3 / 2))) 0 = (.ok (.compl (-2) (3 / 2)), 0) :=
  ⟨c4_amended.1 (-1) 0 (by norm_num),
   c4_amended.2.2 (-2) (3 / 2) 0 (by norm_num) (by with_unfolding_all decide)⟩

/-- C5: calling a registered function with an argument count outside the
callable's declared bounds always raises the typed arity error (the host
TypeError from argument binding, recovered at the expression boundary),
before any function body runs - extra arguments are never dropped; in
particular `evaluate("sin(1,2)")` is exactly that error. -/
theorem c5_arity_mismatch :
    (∀ (impl : FuncImpl) (vals : List Value) (m : ℚ),
        (vals.length < impl.minArity ∨ impl.maxArity < vals.length) →
        applyFuncE impl vals m = .error .typeError)
    ∧ (evalExpression 0 "sin(1,2)").1 = .error .typeError := by
  refine ⟨?_, by with_unfolding_all rfl⟩
  intro impl vals m h
  simp [applyFuncE, h]

/-- Witness for C5 at sin with two arguments. -/
theorem c5_witness :
    applyFuncE .sinF [.num 1, .num 2] 0 = .error .typeError :=
  c5_arity_mismatch.1 .sinF [.num 1, .num 2] 0 (Or.inr (by decide))

/-- C6 (code bug): the scanner of `_replace_bare_mem` does not check for
a following opening parenthesis (although the comment at src/main.py line
186 says it should), so `"mem()"` is rewritten to `"mem()()"`, which
parses as a call whose callee is itself a call and fails with
`SafeEvalError("Only direct function calls allowed")` - the spec's memory
round-trip `store(7.5); evaluate("mem()") = 7.5` is broken, while the
bare-mem form `evaluate("mem + 1") = 8.5` works. -/
theorem c6_mem_rewrite_bug :
    replaceBareMem "mem()" = "mem()()"
    ∧ ((Calculator.new.storeMemory (15 / 2)).evalExpr "mem()").1
        = .error (.safeEval .onlyDirectCalls)
    ∧ ((Calculator.new.storeMemory (15 / 2)).evalExpr "mem + 1").1 = .ok (.num (17 / 2)) :=
  ⟨by with_unfolding_all rfl, by with_unfolding_all rfl, by with_unfolding_all rfl⟩

/-- C7 counterexample: a constant used with call syntax does NOT get an
error distinct from an unknown function - `pi(1)` and `nosuch(1)` raise
the same `Function not allowed` SafeEvalError (one raise site, line 89,
for both `func is None` and `not callable(func)`). -/
theorem c7_counterexample :
    (Calculator.new.evalExpr "pi(1)").1
      = .error (.safeEval (.functionNotAllowed "pi"))
    ∧ (Calculator.new.evalExpr "nosuch(1)").1
      = .error (.safeEval (.functionNotAllowed "nosuch")) :=
  ⟨by with_unfolding_all rfl, by with_unfolding_all rfl⟩

/-- C7 amended: name resolution never falls back to a default value - an
absent identifier fails with `Name not allowed` as a bare name and with
`Function not allowed` in call position; a constant in call position
fails with the SAME `Function not allowed` error as an unknown function
(no distinct NotCallable); a function referenced as a bare name fails
with its own `is not a numeric constant` error. -/
theorem c7_amended :
    (∀ (id : String) (m : ℚ), names id = none →
        visitS (.name id) m = (.error (.safeEval (.nameNotAllowed id)), m))
    ∧ (∀ (id : String) (args : List PyAST) (kws : List (String × PyAST)) (m : ℚ),
        names id = none →
        visitS (.call (.name id) args kws) m
          = (.error (.safeEval (.functionNotAllowed id)), m))
    ∧ (∀ (id : String) (v : ℚ) (args : List PyAST) (kws : List (String × PyAST)) (m : ℚ),
        names id = some (.const v) →
        visitS (.call (.name id) args kws) m
          = (.error (.safeEval (.functionNotAllowed id)), m))
    ∧ (∀ (id : String) (f : FuncImpl) (m : ℚ), names id = some (.fn f) →
        visitS (.name id) m = (.error (.safeEval (.nameNotNumeric id)), m)) := by
  refine ⟨?_, ?_, ?_, ?_⟩
  · intro id m h
    simp [visitS, visitName, h]
  · intro id args kws m h
    simp [visitS, h]
  · intro id v args kws m h
    simp [visitS, h]
  · intro id f m h
    simp [visitS, visitName, h]

/-- Witness for C7 at the names zzz, pi and sin. -/
theorem c7_witness :
    visitS (.name "zzz") 0 = (.error (.safeEval (.nameNotAllowed "zzz")), 0)
    ∧ visitS (.call (.name "pi") [.num 1] []) 0
        = (.error (.safeEval (.functionNotAllowed "pi")), 0)
    ∧ visitS (.name "sin") 0 = (.error (.safeEval (.nameNotNumeric "sin")), 0) :=
  ⟨c7_amended.1 "zzz" 0 rfl,
   c7_amended.2.2.1 "pi" piFloat [.num 1] [] 0 rfl,
   c7_amended.2.2.2 "sin" .sinF 0 rfl⟩

/-- C8 counterexample: a bare list as the whole expression does NOT yield
a TypeMismatch error - `evaluate("[1,2,3]")` succeeds and returns the
list itself (`visit_List` returns the element values and no top-level
scalar check exists). -/
theorem c8_counterexample :
    (evalExpression 0 "[1,2,3]").1 = .ok (.list [.num 1, .num 2, .num 3]) := by
  with_unfolding_all rfl

/-- C8 amended: a top-level list whose elements all evaluate returns the
list of element values (no error and no scalar check); a list is still
usable as an argument to a sequence-accepting function such as sum. -/
theorem c8_amended :
    (∀ (elts : List PyAST) (m m1 : ℚ) (vals : List Value),
        visitArgsS elts m = (.ok vals, m1) →
        visitS (.expression (.list elts)) m = (.ok (.list vals), m1))
    ∧ (evalExpression 0 "sum([1,2,3])").1 = .ok (.num 6) := by
  refine ⟨?_, by with_unfolding_all rfl⟩
  intro elts m m1 vals h
  simp [visitS, h]

/-- Witness for C8 at the one-element list [1]. -/
theorem c8_witness :
    visitS (.expression (.list [PyAST.num 1])) 0 = (.ok (.list [Value.num 1]), 0) :=
  c8_amended.1 [PyAST.num 1] 0 0 [Value.num 1] (by with_unfolding_all rfl)

/-- C9: evaluating any expression leaves the session's memory cell
unchanged (the walk only reads it, through `mem`), and re-evaluating the
same expression against the resulting state yields the identical result. -/
theorem c9_evaluation_preserves_memory :
    ∀ (c : Calculator) (e : String),
      (c.evalExpr e).2 = c ∧ ((c.evalExpr e).2.evalExpr e).1 = (c.evalExpr e).1 := by
  intro c e
  rcases hE : evalExpression c.memory e with ⟨r, m2⟩
  have h : m2 = c.memory := by
    have h0 := evalExpression_frame c.memory e
    rw [hE] at h0
    exact h0
  have hc : c.evalExpr e = (r, c) := by
    simp [Calculator.evalExpr, hE, h]
  refine ⟨by rw [hc], ?_⟩
  rw [hc]
  exact congrArg Prod.fst hc

/-- C10: the evaluator invokes a called function with the positional
arguments only - keyword arguments are neither evaluated nor rejected,
whatever they are; in particular `round(2.5, ndigits=1/0)` returns
round(2.5) = 2 although its keyword value would raise if evaluated. -/
theorem c10_keywords_discarded :
    (∀ (f : PyAST) (args : List PyAST) (kws : List (String × PyAST)) (m : ℚ),
        visitS (.call f args kws) m = visitS (.call f args []) m)
    ∧ (evalExpression 0 "round(2.5, ndigits=1/0)").1 = .ok (.num 2) := by
  refine ⟨?_, by with_unfolding_all rfl⟩
  intro f args kws m
  with_unfolding_all rfl

end AsyncCalc
